import Mathlib

/-!
Verification of the registration/reflection core of the pmp-rosetta repository.

The repository consists of two source files:
  - src/bindings/pmp_registration.h : `pmp_rosetta::register_all`, which declares
    every exposed pmp class, constructor, field, method and (overloaded) free
    function into the rosetta Registry / FunctionRegistry, plus the two local
    adapter functions `copy_mesh` and `load_mesh` and two inline lambda
    computations (`vertices`, `indices`);
  - src/main.cxx : the process entry point, which calls `register_all()` and then
    hands control to the external binding generator.

The rosetta Registry and the wrapped pmp library are external collaborators; the
parts of their behaviour that the claims depend on are modelled from the spec
(section 3, 4.1, 4.2 of spec.md) and marked as such in doc comments.  Everything
else is translated directly from the source.
-/

namespace PmpRosetta

/-- Names (registry keys, exposed names) are strings, as in the source. -/
abbrev Name := String

/-- Semantic type names are recorded as the C++ type spellings appearing in the
source (function pointer types, explicit template arguments). -/
abbrev Ty := String

/-- Last `::`-separated component of a character list, accumulating the
current component in reverse in `acc`. -/
def lastComponent (acc : List Char) : List Char → List Char
  | [] => acc.reverse
  | [c] => (c :: acc).reverse
  | c1 :: c2 :: rest =>
      if c1 == ':' && c2 == ':' then lastComponent [] rest
      else lastComponent (c1 :: acc) (c2 :: rest)

/-- Modelled from the spec: the rosetta registration macros stringify their
argument and expose it under its natural (unqualified) name; an explicit asName
overrides the natural name.  `naturalName` strips the namespace qualifier from
a fully qualified C++ name, e.g. `pmp::triangulate` is exposed as
`triangulate`. -/
def naturalName (s : Name) : Name := ⟨lastComponent [] s.data⟩

/-- Signature of a free function: ordered parameter types and return type. -/
structure FnSig where
  params : List Ty
  ret : Ty
deriving DecidableEq, Repr

/-- One method entry stored for a class.  `ret` is `some t` when the return
type is known from this repository (explicit template argument of a lambda
method, or a handle-returning method whose return type the spec states);
`none` when it is deduced by the framework from the external native
declaration.  `isConst` records the constness when the registration form fixes
it (lambda methods); `synthesized` is true for lambda-backed methods. -/
structure MethodEntry where
  mname : Name
  ret : Option Ty
  isConst : Option Bool
  synthesized : Bool
deriving DecidableEq, Repr

/-- Modelled from the spec: a TypeDescriptor records one reflected class: its
unique name, its constructor signatures in declaration order, its fields and
its methods (spec.md section 3). -/
structure TypeDescriptor where
  name : Name
  ctors : List (List Ty)
  fields : List (Name × Option Ty)
  methods : List MethodEntry
deriving DecidableEq, Repr

/-- Modelled from the spec: a FunctionDescriptor records one exposed free
function: its native name, its effective exposed name (natural name or asName),
its signature when this repository fixes it, and whether it was registered
through the explicit-signature overload form (spec.md section 3, 4.2). -/
structure FunctionDescriptor where
  nativeName : Name
  exposedName : Name
  sig : Option FnSig
  overloaded : Bool
deriving DecidableEq, Repr

/-- Modelled from the spec: the aggregate Registry plus FunctionRegistry state:
the catalogs of type and function descriptors (spec.md section 3). -/
structure RegState where
  types : List TypeDescriptor
  funcs : List FunctionDescriptor
deriving DecidableEq, Repr

/-- The empty registry state that lazy construction yields on first access. -/
def RegState.empty : RegState := ⟨[], []⟩

/-- Lookup of a type descriptor by exposed name (spec.md section 4.1). -/
def RegState.lookupType (s : RegState) (n : Name) : Option TypeDescriptor :=
  s.types.find? (fun td => td.name == n)

/-- Lookup of the function descriptors registered under an exposed name
(spec.md section 4.1). -/
def RegState.lookupFunction (s : RegState) (n : Name) : List FunctionDescriptor :=
  s.funcs.filter (fun fd => fd.exposedName == n)

/-- Whether a type name is already registered. -/
def RegState.hasType (s : RegState) (n : Name) : Bool :=
  s.types.any (fun td => td.name == n)

/-- Whether a function is already registered under an exposed name. -/
def RegState.hasFunction (s : RegState) (n : Name) : Bool :=
  s.funcs.any (fun fd => fd.exposedName == n)

/-- Update the descriptor of the named type in place. -/
def RegState.updateType (s : RegState) (n : Name) (f : TypeDescriptor → TypeDescriptor) :
    RegState :=
  { s with types := s.types.map fun td => if td.name == n then f td else td }

/-- Modelled from the spec: registration-time errors are structural and fatal;
duplicate names are rejected, and builder calls against an undeclared class
are rejected (spec.md section 4.1, 7). -/
inductive RegError where
  | duplicateType (name : Name)
  | duplicateFunction (name : Name)
  | unknownClass (name : Name)
deriving DecidableEq, Repr

/-- One registration event, corresponding to one chained builder call or one
registration macro in `register_all` (src/bindings/pmp_registration.h).
`declClass n` is `ROSETTA_REGISTER_CLASS(n)`; `declCtor`, `declField`,
`declMethod` are the chained `.constructor`, `.field`, `.method` calls;
`declLambdaMethodConst` and `declLambdaMethod` are `.lambda_method_const` and
`.lambda_method`; `declFunction native asName sig ovl` covers
`ROSETTA_REGISTER_FUNCTION` (asName none, ovl false),
`ROSETTA_REGISTER_OVERLOADED_FUNCTION` (asName none, ovl true) and
`ROSETTA_REGISTER_OVERLOADED_FUNCTION_AS` (asName some, ovl true). -/
inductive RegEvent where
  | declClass (native : Name)
  | declCtor (native : Name) (params : List Ty)
  | declField (native : Name) (fname : Name)
  | declMethod (native : Name) (mname : Name) (ret : Option Ty)
  | declLambdaMethodConst (native : Name) (mname : Name) (ret : Ty)
  | declLambdaMethod (native : Name) (mname : Name) (ret : Ty)
  | declFunction (native : Name) (asName : Option Name) (sig : Option FnSig) (ovl : Bool)
deriving DecidableEq, Repr

/-- Modelled from the spec: the effect of one registration event on the
registry state.  Class and function registrations reject duplicate effective
names (spec.md section 4.1); builder calls extend the already-declared class's
descriptor in declaration order (spec.md section 4.2). -/
def applyEvent (s : RegState) : RegEvent → Except RegError RegState
  | .declClass native =>
      let n := naturalName native
      if s.hasType n then .error (.duplicateType n)
      else .ok { s with types := s.types ++ [⟨n, [], [], []⟩] }
  | .declCtor native ps =>
      let n := naturalName native
      if s.hasType n then
        .ok (s.updateType n fun td => { td with ctors := td.ctors ++ [ps] })
      else .error (.unknownClass n)
  | .declField native fname =>
      let n := naturalName native
      if s.hasType n then
        .ok (s.updateType n fun td => { td with fields := td.fields ++ [(fname, none)] })
      else .error (.unknownClass n)
  | .declMethod native mname ret =>
      let n := naturalName native
      if s.hasType n then
        .ok (s.updateType n fun td =>
          { td with methods := td.methods ++ [⟨mname, ret, none, false⟩] })
      else .error (.unknownClass n)
  | .declLambdaMethodConst native mname ret =>
      let n := naturalName native
      if s.hasType n then
        .ok (s.updateType n fun td =>
          { td with methods := td.methods ++ [⟨mname, some ret, some true, true⟩] })
      else .error (.unknownClass n)
  | .declLambdaMethod native mname ret =>
      let n := naturalName native
      if s.hasType n then
        .ok (s.updateType n fun td =>
          { td with methods := td.methods ++ [⟨mname, some ret, some false, true⟩] })
      else .error (.unknownClass n)
  | .declFunction native asName sig ovl =>
      let n := asName.getD (naturalName native)
      if s.hasFunction n then .error (.duplicateFunction n)
      else .ok { s with funcs := s.funcs ++ [⟨native, n, sig, ovl⟩] }

/-- Run a sequence of registration events from a starting state, stopping at
the first structural error (spec.md section 7: fail fast, no partial
recovery). -/
def runEvents (s : RegState) : List RegEvent → Except RegError RegState
  | [] => .ok s
  | e :: es =>
      match applyEvent s e with
      | .ok s' => runEvents s' es
      | .error err => .error err


set_option maxHeartbeats 2000000 in
/-- The ordered sequence of registration events performed by
`pmp_rosetta::register_all` (src/bindings/pmp_registration.h, lines 64-233),
one event per macro invocation or chained builder call, in source order.
Signatures attached to `declFunction` events are exactly the function pointer
types written at the overloaded registration sites, or, for `load_mesh` and
`copy_mesh`, the signatures of their declarations in the same file; plain
registrations of external pmp functions carry `none` (their signatures are
deduced by the framework from declarations outside this repository).
Modelled from the spec: the `some` return types on `add_vertex`,
`add_triangle` and `add_quad` (the handle-returning methods) are the returns
the spec states for them; the remaining plain methods carry `none`. -/
def registerAllEvents : List RegEvent := [
  .declClass "pmp::Vertex", .declCtor "pmp::Vertex" [],
  .declClass "pmp::Face", .declCtor "pmp::Face" [],
  .declClass "pmp::Edge", .declCtor "pmp::Edge" [],
  .declClass "pmp::Halfedge", .declCtor "pmp::Halfedge" [],
  .declClass "pmp::IOFlags", .declCtor "pmp::IOFlags" [],
  .declField "pmp::IOFlags" "use_binary",
  .declField "pmp::IOFlags" "use_vertex_normals",
  .declField "pmp::IOFlags" "use_vertex_colors",
  .declField "pmp::IOFlags" "use_vertex_texcoords",
  .declField "pmp::IOFlags" "use_face_normals",
  .declField "pmp::IOFlags" "use_face_colors",
  .declClass "pmp::Point", .declCtor "pmp::Point" [],
  .declCtor "pmp::Point" ["float", "float", "float"],
  .declClass "pmp::BoundingBox", .declCtor "pmp::BoundingBox" [],
  .declMethod "pmp::BoundingBox" "min" none,
  .declMethod "pmp::BoundingBox" "max" none,
  .declMethod "pmp::BoundingBox" "center" none,
  .declMethod "pmp::BoundingBox" "size" none,
  .declMethod "pmp::BoundingBox" "is_empty" none,
  .declClass "pmp::SurfaceMesh", .declCtor "pmp::SurfaceMesh" [],
  .declMethod "pmp::SurfaceMesh" "add_vertex" (some "pmp::Vertex"),
  .declMethod "pmp::SurfaceMesh" "add_triangle" (some "pmp::Face"),
  .declMethod "pmp::SurfaceMesh" "add_quad" (some "pmp::Face"),
  .declMethod "pmp::SurfaceMesh" "n_vertices" none,
  .declMethod "pmp::SurfaceMesh" "n_edges" none,
  .declMethod "pmp::SurfaceMesh" "n_faces" none,
  .declMethod "pmp::SurfaceMesh" "n_halfedges" none,
  .declMethod "pmp::SurfaceMesh" "is_empty" none,
  .declMethod "pmp::SurfaceMesh" "is_triangle_mesh" none,
  .declMethod "pmp::SurfaceMesh" "is_quad_mesh" none,
  .declMethod "pmp::SurfaceMesh" "clear" none,
  .declMethod "pmp::SurfaceMesh" "reserve" none,
  .declMethod "pmp::SurfaceMesh" "garbage_collection" none,
  .declLambdaMethodConst "pmp::SurfaceMesh" "vertices" "std::vector<pmp::Scalar>",
  .declLambdaMethod "pmp::SurfaceMesh" "indices" "std::vector<pmp::IndexType>",
  .declFunction "pmp::decimate" none none false,
  .declFunction "pmp::explicit_smoothing" none none false,
  .declFunction "pmp::implicit_smoothing" none none false,
  .declFunction "pmp::uniform_remeshing" none none false,
  .declFunction "pmp::adaptive_remeshing" none none false,
  .declFunction "pmp::loop_subdivision" none none false,
  .declFunction "pmp::catmull_clark_subdivision" none none false,
  .declFunction "pmp::quad_tri_subdivision" none none false,
  .declFunction "pmp::vertex_normals" none none false,
  .declFunction "pmp::face_normals" none none false,
  .declFunction "pmp::detect_features" none none false,
  .declFunction "pmp::clear_features" none none false,
  .declFunction "pmp::fill_hole" none none false,
  .declFunction "pmp::curvature" none none false,
  .declFunction "pmp::tetrahedron" none none false,
  .declFunction "pmp::hexahedron" none none false,
  .declFunction "pmp::octahedron" none none false,
  .declFunction "pmp::dodecahedron" none none false,
  .declFunction "pmp::icosahedron" none none false,
  .declFunction "pmp::uv_sphere" none none false,
  .declFunction "pmp::plane" none none false,
  .declFunction "pmp::cone" none none false,
  .declFunction "pmp::cylinder" none none false,
  .declFunction "pmp::torus" none none false,
  .declFunction "pmp::harmonic_parameterization" none none false,
  .declFunction "pmp::lscm_parameterization" none none false,
  .declFunction "pmp::bounds" none none false,
  .declFunction "pmp::surface_area" none none false,
  .declFunction "pmp::volume" none none false,
  .declFunction "pmp::flip_faces" none none false,
  .declFunction "pmp::triangulate" none
    (some ⟨["pmp::SurfaceMesh &"], "void"⟩) true,
  .declFunction "pmp::triangulate" (some "triangulate_face")
    (some ⟨["pmp::SurfaceMesh &", "pmp::Face"], "void"⟩) true,
  .declFunction "pmp::centroid" none
    (some ⟨["const pmp::SurfaceMesh &"], "pmp::Point"⟩) true,
  .declFunction "pmp::read" none
    (some ⟨["pmp::SurfaceMesh &", "const std::filesystem::path &"], "void"⟩) true,
  .declFunction "load_mesh" none
    (some ⟨["pmp::SurfaceMesh &", "const std::filesystem::path &"], "void"⟩) false,
  .declFunction "copy_mesh" none
    (some ⟨["const pmp::SurfaceMesh &"], "pmp::SurfaceMesh"⟩) false,
  .declFunction "pmp::write" none
    (some ⟨["const pmp::SurfaceMesh &", "const std::filesystem::path &",
            "const pmp::IOFlags &"], "void"⟩) true]

/-- Shallow embedding of `pmp_rosetta::register_all`: the whole registration
procedure, run against an initially empty registry. -/
def register_all : Except RegError RegState :=
  runEvents RegState.empty registerAllEvents

/-- The registry state that `register_all` leaves behind (the empty state in
the error case, which does not occur). -/
def registryAfterRegisterAll : RegState :=
  match register_all with
  | .ok s => s
  | .error _ => RegState.empty

/-- Decidable equality of registration outcomes, used to settle concrete facts
about the result of `register_all` by evaluation. -/
instance : DecidableEq (Except RegError RegState) := fun a b =>
  match a, b with
  | .ok x, .ok y =>
      if h : x = y then .isTrue (by rw [h])
      else .isFalse (fun hc => h (by cases hc; rfl))
  | .ok _, .error _ => .isFalse (fun hc => by cases hc)
  | .error _, .ok _ => .isFalse (fun hc => by cases hc)
  | .error x, .error y =>
      if h : x = y then .isTrue (by rw [h])
      else .isFalse (fun hc => h (by cases hc; rfl))

set_option maxHeartbeats 2000000 in
/-- The single invocation of `register_all` succeeds and produces
`registryAfterRegisterAll`: no duplicate or unknown-class error occurs during
the registration sequence. -/
theorem register_all_succeeds : register_all = .ok registryAfterRegisterAll := by
  decide

/-- Shallow embedding of `main` (src/main.cxx, lines 12-20): the process entry
point first calls `pmp_rosetta::register_all()` and then returns the value of
the external generator entry point `BindingGeneratorLib::run(argc, argv)` as
the process exit code.  The generator is external to this repository, so it is
an arbitrary function `run` of the registry contents it observes and of the
process's command-line arguments. -/
def mainProcess (run : Except RegError RegState → Nat → List String → Int)
    (argc : Nat) (argv : List String) : Int :=
  let registered := register_all
  run registered argc argv

/-- The four handle types registered at the top of `register_all`
(src/bindings/pmp_registration.h, lines 64-67), by their native names. -/
def handleTypes : List Ty := ["pmp::Vertex", "pmp::Face", "pmp::Edge", "pmp::Halfedge"]

/-- Return type of a method-registration event when that return type is one of
the handle types; `none` for every other event. -/
def methodHandleReturn : RegEvent → Option Ty
  | .declMethod _ _ (some ret) => if handleTypes.contains ret then some ret else none
  | .declLambdaMethodConst _ _ ret => if handleTypes.contains ret then some ret else none
  | .declLambdaMethod _ _ ret => if handleTypes.contains ret then some ret else none
  | _ => none

/-- The registration event at position `i` of `register_all`; the default is
an event that registers nothing relevant (used only past the end). -/
def eventAt (i : Nat) : RegEvent := registerAllEvents.getD i (.declClass "")

/-- Whether a function-registration event registers a function local to this
repository (its native name carries no namespace qualifier). -/
def isLocalFunction : RegEvent → Bool
  | .declFunction native _ _ _ => !(native.data.contains ':')
  | _ => false

/-- Type descriptor for exposed name `n` assembled directly from the
declaration events, independently of the registry fold: the class must be
declared, and its constructors, fields and methods are collected in
declaration order.  Used to state the round-trip property. -/
def declaredType (evs : List RegEvent) (n : Name) : Option TypeDescriptor :=
  if evs.any (fun e => match e with
      | .declClass native => naturalName native == n
      | _ => false) then
    some
      { name := n
        ctors := evs.foldl (fun acc e => match e with
          | .declCtor native ps => if naturalName native == n then acc ++ [ps] else acc
          | _ => acc) []
        fields := evs.foldl (fun acc e => match e with
          | .declField native fname =>
              if naturalName native == n then acc ++ [(fname, none)] else acc
          | _ => acc) []
        methods := evs.foldl (fun acc e => match e with
          | .declMethod native mname ret =>
              if naturalName native == n then acc ++ [⟨mname, ret, none, false⟩] else acc
          | .declLambdaMethodConst native mname ret =>
              if naturalName native == n then acc ++ [⟨mname, some ret, some true, true⟩]
              else acc
          | .declLambdaMethod native mname ret =>
              if naturalName native == n then acc ++ [⟨mname, some ret, some false, true⟩]
              else acc
          | _ => acc) [] }
  else none

/-- Function descriptors declared under effective exposed name `n`, assembled
directly from the declaration events, independently of the registry fold. -/
def declaredFunctions (evs : List RegEvent) (n : Name) : List FunctionDescriptor :=
  evs.foldl (fun acc e => match e with
    | .declFunction native asName sig ovl =>
        let exposed := asName.getD (naturalName native)
        if exposed == n then acc ++ [⟨native, exposed, sig, ovl⟩] else acc
    | _ => acc) []

/-- Exposed names of all classes declared by the events. -/
def declaredTypeNames (evs : List RegEvent) : List Name :=
  evs.filterMap fun e => match e with
    | .declClass native => some (naturalName native)
    | _ => none

/-- Effective exposed names of all functions declared by the events. -/
def declaredFunctionNames (evs : List RegEvent) : List Name :=
  evs.filterMap fun e => match e with
    | .declFunction native asName _ _ => some (asName.getD (naturalName native))
    | _ => none

/-- Modelled from the spec: the coordinate scalar type `pmp::Scalar` of the
wrapped library.  The registered computations only move coordinate values,
never combine them arithmetically, so the carrier is modelled as an integer
type. -/
abbrev Scalar := Int

/-- A three-component position, the observable content of a `pmp::Point`. -/
structure Point where
  x : Scalar
  y : Scalar
  z : Scalar
deriving DecidableEq, Repr

/-- Modelled from the spec: a `pmp::SurfaceMesh` as observed by the two
registered inline computations of src/bindings/pmp_registration.h:
`positions` lists the position of each vertex in vertex-iteration order, and
`faces` lists, in face-iteration order, the indices (`idx()`) of each face's
incident vertices in that face's vertex-circulation order. -/
structure SurfaceMesh where
  positions : List Point
  faces : List (List Nat)
deriving DecidableEq, Repr

/-- Number of vertices of the mesh (`n_vertices`). -/
def n_vertices (m : SurfaceMesh) : Nat := m.positions.length

/-- Number of faces of the mesh (`n_faces`). -/
def n_faces (m : SurfaceMesh) : Nat := m.faces.length

/-- Shallow embedding of the lambda registered as `"vertices"`
(src/bindings/pmp_registration.h, lines 118-130): for each vertex in
iteration order, push the three components of its position onto a flat
vector. -/
def verticesComputation (m : SurfaceMesh) : List Scalar :=
  m.positions.foldl (fun pos p => pos ++ [p.x, p.y, p.z]) []

/-- Shallow embedding of the lambda registered as `"indices"`
(src/bindings/pmp_registration.h, lines 131-141): for each face in iteration
order, push the index of each of its vertices in circulation order.  The
computation is total for any polygon mesh, not only triangle meshes. -/
def indicesComputation (m : SurfaceMesh) : List Nat :=
  m.faces.foldl (fun acc f => acc ++ f) []

/-- Generator-side invocation of the stored `"indices"` computation: the
lambda takes the mesh by const reference (src line 132), so invocation
returns the mesh unchanged alongside the computed index list. -/
def invokeIndices (m : SurfaceMesh) : SurfaceMesh × List Nat :=
  (m, indicesComputation m)

/-- Shallow embedding of `copy_mesh` (src/bindings/pmp_registration.h, lines
43-45): construct a new mesh value copy-constructed from the source, copying
each of its components. -/
def copy_mesh (src : SurfaceMesh) : SurfaceMesh := ⟨src.positions, src.faces⟩

/-- Filesystem paths, as the opaque argument type of `load_mesh`. -/
abbrev FsPath := String

/-- Shallow embedding of `load_mesh` (src/bindings/pmp_registration.h, lines
47-50): delegate the whole load to the wrapped library's `pmp::read`.  The
library's read behaviour is external to this repository, so it is an
arbitrary function `readImpl` from the incoming mesh and the path to the
loaded mesh. -/
def load_mesh (readImpl : SurfaceMesh → FsPath → SurfaceMesh)
    (mesh : SurfaceMesh) (filepath : FsPath) : SurfaceMesh :=
  readImpl mesh filepath

/-- Modelled from the spec: the observable state of the wrapped library and of
the stored accessors and computations during registration: the meshes alive in
the process and a trace of every accessor or computation invocation. -/
structure LibraryWorld where
  meshes : List SurfaceMesh
  invocations : List Name
deriving DecidableEq, Repr

/-- Registration threaded through the library world.  Translated from the
source: every registration statement of `register_all` only records names,
signatures and accessor values in the registry; none reads or writes a mesh
and none invokes a stored accessor or computation, so each event leaves the
world component untouched. -/
def applyEventW (w : LibraryWorld) (s : RegState) (e : RegEvent) :
    LibraryWorld × Except RegError RegState :=
  (w, applyEvent s e)

/-- Run the registration events threaded through the library world. -/
def runEventsW (w : LibraryWorld) (s : RegState) :
    List RegEvent → LibraryWorld × Except RegError RegState
  | [] => (w, .ok s)
  | e :: es =>
      match applyEventW w s e with
      | (w', .ok s') => runEventsW w' s' es
      | (w', .error err) => (w', .error err)

/-- Registration procedure `register_all` threaded through the library
world. -/
def register_allW (w : LibraryWorld) : LibraryWorld × Except RegError RegState :=
  runEventsW w RegState.empty registerAllEvents

/-- A small concrete mesh used to instantiate the universally quantified
claims: two triangles sharing an edge, four vertices. -/
def demoMesh : SurfaceMesh :=
  { positions := [⟨0, 0, 0⟩, ⟨1, 0, 0⟩, ⟨0, 1, 0⟩, ⟨1, 1, 0⟩]
    faces := [[0, 1, 2], [1, 3, 2]] }

/-- Folding append over a list starting from an accumulator is the accumulator
followed by the flattening. -/
theorem foldl_append_eq_flatMap {α β : Type} (f : α → List β) (l : List α) :
    ∀ acc : List β, l.foldl (fun r a => r ++ f a) acc = acc ++ l.flatMap f := by
  induction l with
  | nil => intro acc; simp
  | cons a t ih => intro acc; simp [List.foldl, ih, List.append_assoc]

/-- The `"vertices"` computation is the flattening of the per-vertex
coordinate triples, in vertex-iteration order. -/
theorem verticesComputation_eq_flatMap (m : SurfaceMesh) :
    verticesComputation m = m.positions.flatMap fun p => [p.x, p.y, p.z] := by
  simpa using foldl_append_eq_flatMap (fun p : Point => [p.x, p.y, p.z]) m.positions []

/-- The `"indices"` computation is the concatenation of the per-face index
lists, in face-iteration order. -/
theorem indicesComputation_eq_flatten (m : SurfaceMesh) :
    indicesComputation m = m.faces.flatten := by
  have h := foldl_append_eq_flatMap (id : List Nat → List Nat) m.faces []
  simpa using h

/-- Flattening coordinate triples has three entries per source element. -/
theorem flatMap_triple_length (l : List Point) :
    (l.flatMap fun p => [p.x, p.y, p.z]).length = 3 * l.length := by
  induction l with
  | nil => simp
  | cons p t ih => simp [ih]; omega

/-- Entry characterization of the flattened coordinate triples: position `i`'s
components sit at offsets `3*i`, `3*i+1`, `3*i+2`. -/
theorem flatMap_triple_get (l : List Point) :
    ∀ (i : Nat) (h : i < l.length),
      (l.flatMap fun p => [p.x, p.y, p.z]).get? (3 * i) = some (l.get ⟨i, h⟩).x ∧
      (l.flatMap fun p => [p.x, p.y, p.z]).get? (3 * i + 1) = some (l.get ⟨i, h⟩).y ∧
      (l.flatMap fun p => [p.x, p.y, p.z]).get? (3 * i + 2) = some (l.get ⟨i, h⟩).z := by
  induction l with
  | nil => intro i h; simp at h
  | cons p t ih =>
      intro i h
      cases i with
      | zero => simp
      | succ i =>
          have h' : i < t.length := by simpa using h
          have hm : 3 * (i + 1) = 3 * i + 1 + 1 + 1 := by omega
          simpa [hm] using ih i h'

/-- Entry characterization of the flattened face lists: within face `k`, entry
`t` of the face sits at the offset given by the total length of the earlier
faces plus `t`. -/
theorem flatten_get (fs : List (List Nat)) :
    ∀ (k : Nat) (hk : k < fs.length) (t : Nat),
      t < (fs.get ⟨k, hk⟩).length →
      fs.flatten.get? (((fs.take k).map List.length).sum + t) =
        (fs.get ⟨k, hk⟩).get? t := by
  induction fs with
  | nil => intro k hk; simp at hk
  | cons f rest ih =>
      intro k hk t ht
      cases k with
      | zero =>
          simp only [List.take_zero, List.map_nil, List.sum_nil, Nat.zero_add]
          simp only [List.get] at ht ⊢
          rw [List.flatten_cons, List.get?_append ht]
      | succ k =>
          have hk' : k < rest.length := by simpa using hk
          simp only [List.get] at ht ⊢
          rw [List.flatten_cons]
          have harith :
              (((f :: rest).take (k + 1)).map List.length).sum + t =
                f.length + ((((rest.take k).map List.length).sum) + t) := by
            simp [List.take_succ_cons]; omega
          rw [harith, List.get?_append_right (by omega)]
          have hsub : f.length + (((rest.take k).map List.length).sum + t) - f.length =
              ((rest.take k).map List.length).sum + t := by omega
          rw [hsub]
          exact ih k hk' t ht

/-- Threading the library world through the registration events never changes
the world: each event only touches the registry. -/
theorem runEventsW_frame (evs : List RegEvent) :
    ∀ (w : LibraryWorld) (s : RegState),
      runEventsW w s evs = (w, runEvents s evs) := by
  induction evs with
  | nil => intro w s; rfl
  | cons e es ih =>
      intro w s
      show (match (w, applyEvent s e) with
        | (w', .ok s') => runEventsW w' s' es
        | (w', .error err) => (w', .error err)) = _
      cases h : applyEvent s e with
      | ok s' => simp [runEvents, h, ih]
      | error err => simp [runEvents, h]

/-- Total face size of a mesh whose faces are all triangles. -/
theorem sum_map_length_triangles (fs : List (List Nat)) (h : ∀ f ∈ fs, f.length = 3) :
    (fs.map List.length).sum = 3 * fs.length := by
  induction fs with
  | nil => simp
  | cons f t ih =>
      have hf := h f (List.mem_cons_self f t)
      have hrest := fun g hg => h g (List.mem_cons_of_mem f hg)
      simp only [List.map_cons, List.sum_cons, List.length_cons, hf, ih hrest]
      omega

set_option maxHeartbeats 2000000 in
/-- C1: invoking the full registration procedure twice in one process is
deterministically rejected on the second invocation: the first run of
`register_all` populates the registry successfully, and re-running the same
registration sequence against the populated registry fails fast with a
duplicate-registration error naming the first re-registered name, never
silently doubling the registry. -/
theorem register_all_twice_rejected :
    register_all = Except.ok registryAfterRegisterAll ∧
    runEvents registryAfterRegisterAll registerAllEvents =
      Except.error (RegError.duplicateType "Vertex") :=
  ⟨register_all_succeeds, by decide⟩

/-- C2: in every execution of the process entry point, the registry the
generator's run entry point observes is exactly the one populated by
`register_all` (so registration strictly precedes the generator run), the
generator receives the process's argc and argv unchanged, and the value it
returns is the process exit code. -/
theorem main_registers_before_generator
    (run : Except RegError RegState → Nat → List String → Int)
    (argc : Nat) (argv : List String) :
    mainProcess run argc argv = run (Except.ok registryAfterRegisterAll) argc argv := by
  show run register_all argc argv = _
  rw [register_all_succeeds]

set_option maxHeartbeats 4000000 in
/-- C3: each of the four handle types returned by registered SurfaceMesh
methods is registered as a first-class type with a default constructor, and
every method-registration event of `register_all` whose return type is a
handle type is strictly preceded by the events registering that handle type
and its default constructor. -/
theorem handle_types_registered_before_methods :
    (∀ ht ∈ handleTypes,
      ((registryAfterRegisterAll.lookupType (naturalName ht)).any
        fun td => td.ctors.contains []) = true) ∧
    (∀ i ∈ List.range registerAllEvents.length,
      ∀ ret ∈ (methodHandleReturn (eventAt i)).toList,
        (∃ j ∈ List.range i, eventAt j = RegEvent.declClass ret) ∧
        (∃ k ∈ List.range i, eventAt k = RegEvent.declCtor ret [])) := by
  decide

/-- Witness for C3 at the `add_vertex` registration event (position 28 of the
event sequence), whose return type is the handle type `pmp::Vertex`. -/
theorem handle_types_registered_before_methods_witness :
    (∃ j ∈ List.range 28, eventAt j = RegEvent.declClass "pmp::Vertex") ∧
    (∃ k ∈ List.range 28, eventAt k = RegEvent.declCtor "pmp::Vertex" []) :=
  handle_types_registered_before_methods.2 28 (by decide) "pmp::Vertex" (by decide)

set_option maxHeartbeats 4000000 in
/-- C4: `register_all` registers exactly two overloads of `pmp::triangulate`,
one exposed under the name "triangulate" and one under the alternate name
"triangulate_face"; after registration each lookup returns exactly one
descriptor, with one parameter for "triangulate" and two for
"triangulate_face". -/
theorem triangulate_overloads :
    (registerAllEvents.filter (fun e => match e with
      | RegEvent.declFunction native _ _ _ => native == "pmp::triangulate"
      | _ => false)).length = 2 ∧
    registryAfterRegisterAll.lookupFunction "triangulate" =
      [⟨"pmp::triangulate", "triangulate",
        some ⟨["pmp::SurfaceMesh &"], "void"⟩, true⟩] ∧
    registryAfterRegisterAll.lookupFunction "triangulate_face" =
      [⟨"pmp::triangulate", "triangulate_face",
        some ⟨["pmp::SurfaceMesh &", "pmp::Face"], "void"⟩, true⟩] ∧
    ((registryAfterRegisterAll.lookupFunction "triangulate").all
      fun fd => fd.sig.all fun sg => sg.params.length == 1) = true ∧
    ((registryAfterRegisterAll.lookupFunction "triangulate_face").all
      fun fd => fd.sig.all fun sg => sg.params.length == 2) = true := by
  decide

set_option maxHeartbeats 2000000 in
/-- C5: the method registered under "vertices" on SurfaceMesh is synthesized
(lambda-backed), declared const with the sequence-of-numeric return type
std::vector of pmp::Scalar, and for every mesh its stored computation produces
a flat list of length 3 * n_vertices whose entries at offsets 3i, 3i+1, 3i+2
are the x, y, z components of vertex i's position, in vertex-iteration order,
independently of the per-vertex Point representation. -/
theorem vertices_method_spec (m : SurfaceMesh) :
    ((registryAfterRegisterAll.lookupType "SurfaceMesh").any fun td =>
      td.methods.contains
        ⟨"vertices", some "std::vector<pmp::Scalar>", some true, true⟩) = true ∧
    (verticesComputation m).length = 3 * n_vertices m ∧
    (∀ (i : Nat) (h : i < n_vertices m),
      (verticesComputation m).get? (3 * i) = some (m.positions.get ⟨i, h⟩).x ∧
      (verticesComputation m).get? (3 * i + 1) = some (m.positions.get ⟨i, h⟩).y ∧
      (verticesComputation m).get? (3 * i + 2) = some (m.positions.get ⟨i, h⟩).z) := by
  refine ⟨by decide, ?_, ?_⟩
  · rw [verticesComputation_eq_flatMap]
    exact flatMap_triple_length m.positions
  · intro i h
    rw [verticesComputation_eq_flatMap]
    exact flatMap_triple_get m.positions i h

/-- Witness for C5 at the concrete demo mesh and vertex index 1. -/
theorem vertices_method_spec_witness :
    (verticesComputation demoMesh).get? (3 * 1) =
      some (demoMesh.positions.get ⟨1, by decide⟩).x ∧
    (verticesComputation demoMesh).get? (3 * 1 + 1) =
      some (demoMesh.positions.get ⟨1, by decide⟩).y ∧
    (verticesComputation demoMesh).get? (3 * 1 + 2) =
      some (demoMesh.positions.get ⟨1, by decide⟩).z :=
  (vertices_method_spec demoMesh).2.2 1 (by decide)

set_option maxHeartbeats 4000000 in
/-- C6: the only repository-local functions registered by `register_all` are
the two convenience adapters `load_mesh` and `copy_mesh`, both through the
ordinary (non-overloaded) registration form; `copy_mesh` returns a new mesh
value copy-constructed from, hence equal to, its source, and `load_mesh`
performs the whole load in one step by delegating to the library's read. -/
theorem convenience_adapters :
    registerAllEvents.filter isLocalFunction =
      [RegEvent.declFunction "load_mesh" none
        (some ⟨["pmp::SurfaceMesh &", "const std::filesystem::path &"], "void"⟩) false,
       RegEvent.declFunction "copy_mesh" none
        (some ⟨["const pmp::SurfaceMesh &"], "pmp::SurfaceMesh"⟩) false] ∧
    registryAfterRegisterAll.lookupFunction "load_mesh" =
      [⟨"load_mesh", "load_mesh",
        some ⟨["pmp::SurfaceMesh &", "const std::filesystem::path &"], "void"⟩, false⟩] ∧
    registryAfterRegisterAll.lookupFunction "copy_mesh" =
      [⟨"copy_mesh", "copy_mesh",
        some ⟨["const pmp::SurfaceMesh &"], "pmp::SurfaceMesh"⟩, false⟩] ∧
    (∀ src : SurfaceMesh, copy_mesh src = src) ∧
    (∀ (readImpl : SurfaceMesh → FsPath → SurfaceMesh) (mesh : SurfaceMesh) (p : FsPath),
      load_mesh readImpl mesh p = readImpl mesh p) :=
  ⟨by decide, by decide, by decide, fun _ => rfl, fun _ _ _ => rfl⟩

set_option maxHeartbeats 8000000 in
/-- C7: round-trip property — for every exposed type name registered by
`register_all`, lookup in the final registry returns exactly the type
descriptor assembled from that name's declarations, and for every effective
exposed function name, lookup returns exactly the function descriptors
declared under it (same name, signature and kind). -/
theorem registry_roundtrip :
    (∀ n ∈ declaredTypeNames registerAllEvents,
      registryAfterRegisterAll.lookupType n = declaredType registerAllEvents n) ∧
    (∀ n ∈ declaredFunctionNames registerAllEvents,
      registryAfterRegisterAll.lookupFunction n = declaredFunctions registerAllEvents n) := by
  decide

/-- Witness for C7 at the exposed names "SurfaceMesh" and "triangulate_face". -/
theorem registry_roundtrip_witness :
    registryAfterRegisterAll.lookupType "SurfaceMesh" =
      declaredType registerAllEvents "SurfaceMesh" ∧
    registryAfterRegisterAll.lookupFunction "triangulate_face" =
      declaredFunctions registerAllEvents "triangulate_face" :=
  ⟨registry_roundtrip.1 "SurfaceMesh" (by decide),
   registry_roundtrip.2 "triangulate_face" (by decide)⟩

/-- C8: executing `register_all` invokes no registered accessor or stored
computation and neither reads nor mutates wrapped-library state: threaded
through an arbitrary library world (meshes plus invocation trace), the whole
registration leaves the world untouched and produces a registry that does not
depend on it. -/
theorem register_all_no_library_effects (w : LibraryWorld) :
    register_allW w = (w, register_all) :=
  runEventsW_frame registerAllEvents w RegState.empty

set_option maxHeartbeats 2000000 in
/-- C9: the computation stored under "indices" takes the mesh by const
reference and performs only reads, so invoking it returns the mesh unchanged
together with the computed value — even though the entry is registered through
the mutable lambda_method form (constness flag false), unlike the const-form
"vertices" entry (constness flag true). -/
theorem indices_invocation_preserves_mesh (m : SurfaceMesh) :
    (invokeIndices m).1 = m ∧
    (invokeIndices m).2 = indicesComputation m ∧
    ((registryAfterRegisterAll.lookupType "SurfaceMesh").any fun td =>
      td.methods.contains
        ⟨"indices", some "std::vector<pmp::IndexType>", some false, true⟩) = true ∧
    ((registryAfterRegisterAll.lookupType "SurfaceMesh").any fun td =>
      td.methods.contains
        ⟨"vertices", some "std::vector<pmp::Scalar>", some true, true⟩) = true :=
  ⟨rfl, rfl, by decide, by decide⟩

/-- C10: the "indices" computation returns exactly one entry per (face,
incident vertex) pair, in face-iteration order and, within each face, in that
face's vertex order, each entry being the vertex's index: its length is the
total of the face sizes, the entry at (sizes of earlier faces + t) is entry t
of face k, and for a triangle mesh the length is exactly 3 * n_faces.  The
computation is total for arbitrary polygon meshes, not only triangle
meshes. -/
theorem indices_computation_spec (m : SurfaceMesh) :
    (indicesComputation m).length = (m.faces.map List.length).sum ∧
    ((∀ f ∈ m.faces, f.length = 3) →
      (indicesComputation m).length = 3 * n_faces m) ∧
    (∀ (k : Nat) (hk : k < n_faces m) (t : Nat),
      t < (m.faces.get ⟨k, hk⟩).length →
      (indicesComputation m).get? (((m.faces.take k).map List.length).sum + t) =
        (m.faces.get ⟨k, hk⟩).get? t) := by
  refine ⟨?_, ?_, ?_⟩
  · rw [indicesComputation_eq_flatten]
    exact List.length_flatten m.faces
  · intro h3
    rw [indicesComputation_eq_flatten, List.length_flatten]
    exact sum_map_length_triangles m.faces h3
  · intro k hk t ht
    rw [indicesComputation_eq_flatten]
    exact flatten_get m.faces k hk t ht

/-- Witness for C10 at the concrete demo mesh (a triangle mesh with two
faces), face 1, entry 2. -/
theorem indices_computation_spec_witness :
    (indicesComputation demoMesh).length = 3 * n_faces demoMesh ∧
    (indicesComputation demoMesh).get?
        (((demoMesh.faces.take 1).map List.length).sum + 2) =
      (demoMesh.faces.get ⟨1, by decide⟩).get? 2 :=
  ⟨(indices_computation_spec demoMesh).2.1 (by decide),
   (indices_computation_spec demoMesh).2.2 1 (by decide) 2 (by decide)⟩

end PmpRosetta
